import Mathlib

/-!
Shallow embedding of the persistence layer of the Fitness_Tracker app
(src/database/database.ts) together with the relational semantics of the
schema it declares (tables Usuario, Comida, Ruta, Consumo with the
FOREIGN KEY actions written in CREATE_RUTA_SQL and CREATE_CONSUMO_SQL).

SQLite REAL columns are modelled by `ℚ`, TEXT by `String`, NULLable
columns by `Option`.  A row id generated by INTEGER PRIMARY KEY
AUTOINCREMENT is modelled by a per-table counter in the store state.
The storage engine's possible I/O failure is modelled by an explicit
`Option StorageError` parameter: `some e` means the underlying statement
fails with error `e`, `none` means it succeeds.  Each access function is
a thin try/catch around one statement that logs and rethrows, which the
embedding renders as returning `Except.error e` unchanged.

Timestamps: the code formats dates with
`toISOString().slice(0, 19).replace('T', ' ')`.  `toISOString` renders
the UTC (not local) broken-down time zero-padded; the embedding models a
JavaScript `Date` value by its UTC broken-down time (`DateTime`) and the
formatting by `fmtTimestamp`.
-/

namespace FitnessTracker

/-- An error raised by the underlying storage engine. -/
structure StorageError where
  msg : String
deriving DecidableEq

/-- Row of table Usuario (id, nombre, edad, altura, peso, metabolismo). -/
structure UsuarioRow where
  id : Nat
  nombre : Option String
  edad : Option Int
  altura : Option ℚ
  peso : Option ℚ
  metabolismo : Option ℚ
deriving DecidableEq

/-- Row of table Comida (id, nombre TEXT UNIQUE NOT NULL, valor_calorico REAL, descripcion TEXT). -/
structure ComidaRow where
  id : Nat
  nombre : String
  valor_calorico : Option ℚ
  descripcion : Option String
deriving DecidableEq

/-- Row of table Ruta (id, usuario_id, fecha TEXT NOT NULL, distancia, coordenadas). -/
structure RutaRow where
  id : Nat
  usuario_id : Nat
  fecha : String
  distancia : Option ℚ
  coordenadas : Option String
deriving DecidableEq

/-- Row of table Consumo (id, usuario_id, comida_id, fecha TEXT NOT NULL, cantidad REAL DEFAULT 1.0). -/
structure ConsumoRow where
  id : Nat
  usuario_id : Nat
  comida_id : Nat
  fecha : String
  cantidad : ℚ
deriving DecidableEq

/-- The state of the SQLite database file: the schema objects that exist
(table names and index names) and the contents of the four tables,
plus the AUTOINCREMENT counters. -/
structure DB where
  tables : List String
  indexes : List String
  usuarios : List UsuarioRow
  comidas : List ComidaRow
  rutas : List RutaRow
  consumos : List ConsumoRow
  nextUsuarioId : Nat
  nextComidaId : Nat
  nextRutaId : Nat
  nextConsumoId : Nat
deriving DecidableEq

/-- A database file with no schema and no rows. -/
def emptyDB : DB :=
  ⟨[], [], [], [], [], [], 1, 1, 1, 1⟩

/-- Input record for INSERT INTO Usuario (NewUsuario in entities). -/
structure NewUsuario where
  nombre : Option String
  edad : Option Int
  altura : Option ℚ
  peso : Option ℚ
  metabolismo : Option ℚ
deriving DecidableEq

/-- Input record for INSERT INTO Comida (NewComida in entities). -/
structure NewComida where
  nombre : String
  valor_calorico : Option ℚ
  descripcion : Option String
deriving DecidableEq

/-- A JavaScript Date value, modelled by its UTC broken-down time. -/
structure DateTime where
  year : Nat
  month : Nat
  day : Nat
  hour : Nat
  minute : Nat
  second : Nat
deriving DecidableEq

/-- Input record for INSERT INTO Consumo (NewConsumo in entities); the
optional `fecha` is the Date obtained by the code from the caller's
value via `new Date(consumption.fecha)`. -/
structure NewConsumo where
  usuario_id : Nat
  comida_id : Nat
  fecha : Option DateTime
  cantidad : Option ℚ
deriving DecidableEq

/-- Input record for INSERT INTO Ruta (NewRuta in entities). -/
structure NewRuta where
  usuario_id : Nat
  fecha : String
  distancia : Option ℚ
  coordenadas : Option String
deriving DecidableEq

/-- Two-digit zero-padded decimal rendering of a field of a broken-down
time, as produced inside `Date.prototype.toISOString` (faithful for the
in-range values 0..99 such fields take). -/
def pad2 (n : Nat) : String :=
  String.mk [Nat.digitChar (n / 10 % 10), Nat.digitChar (n % 10)]

/-- Four-digit zero-padded decimal rendering of the year field, as
produced inside `Date.prototype.toISOString` for years 0..9999. -/
def pad4 (n : Nat) : String :=
  String.mk [Nat.digitChar (n / 1000 % 10), Nat.digitChar (n / 100 % 10),
             Nat.digitChar (n / 10 % 10), Nat.digitChar (n % 10)]

/-- The YYYY-MM-DD slice of the ISO rendering of a Date, i.e.
`date.toISOString().slice(0, 10)` as used by getCaloriesForDate. -/
def fmtDate (dt : DateTime) : String :=
  pad4 dt.year ++ "-" ++ pad2 dt.month ++ "-" ++ pad2 dt.day

/-- The full stored timestamp, i.e.
`dateToUse.toISOString().slice(0, 19).replace('T', ' ')`
as used by addConsumption. -/
def fmtTimestamp (dt : DateTime) : String :=
  fmtDate dt ++ " " ++ pad2 dt.hour ++ ":" ++ pad2 dt.minute ++ ":" ++ pad2 dt.second

/-- Checks that a string has the exact zero-padded layout
`YYYY-MM-DD HH:MM:SS` (19 characters, digits and fixed separators). -/
def isTimestampLayout (s : String) : Bool :=
  match s.data with
  | [a, b, c, d, s1, e, f, s2, g, h, sp, i, j, c1, k, l, c2, m, n] =>
      a.isDigit && b.isDigit && c.isDigit && d.isDigit && s1 == '-' &&
      e.isDigit && f.isDigit && s2 == '-' && g.isDigit && h.isDigit &&
      sp == ' ' && i.isDigit && j.isDigit && c1 == ':' &&
      k.isDigit && l.isDigit && c2 == ':' && m.isDigit && n.isDigit
  | _ => false

/-- Modelled from the spec: the local-time broken-down time of an
instant is its UTC broken-down time shifted by the device's timezone
offset (given here in whole hours, for instants where the shift does not
cross a day boundary).  The repository's code never computes this; the
spec's "local-time strings" wording refers to it. -/
def localOf (dt : DateTime) (offHours : Nat) : DateTime :=
  { dt with hour := (dt.hour + offHours) % 24 }

/-- Lexicographic comparison of two strings as lists of characters:
the order SQLite's default BINARY collation gives TEXT values (UTF-8
byte order, which coincides with code-point order). -/
def charListLe : List Char → List Char → Bool
  | [], _ => true
  | _ :: _, [] => false
  | a :: as, b :: bs =>
      if a.toNat < b.toNat then true
      else if b.toNat < a.toNat then false
      else charListLe as bs

/-- TEXT comparison under SQLite's default BINARY collation. -/
def strLeB (a b : String) : Bool :=
  charListLe a.data b.data

/-- Semantics of `CREATE TABLE IF NOT EXISTS n (...)`: a no-op when the
table already exists, otherwise the table is added to the schema. -/
def createTableIfNotExists (db : DB) (n : String) : DB :=
  if n ∈ db.tables then db else { db with tables := db.tables ++ [n] }

/-- Semantics of `CREATE INDEX IF NOT EXISTS n ON ...`: a no-op when the
index already exists, otherwise the index is added to the schema. -/
def createIndexIfNotExists (db : DB) (n : String) : DB :=
  if n ∈ db.indexes then db else { db with indexes := db.indexes ++ [n] }

/-- The four tables created by initializeDatabase, in statement order
(CREATE_USUARIO_SQL, CREATE_COMIDA_SQL, CREATE_RUTA_SQL, CREATE_CONSUMO_SQL). -/
def tableNames : List String :=
  ["Usuario", "Comida", "Ruta", "Consumo"]

/-- The three indexes created by initializeDatabase, in statement order. -/
def indexNames : List String :=
  ["idx_ruta_usuario_fecha", "idx_consumo_usuario_fecha", "idx_consumo_comida"]

/-- The schema-creation transaction of initializeDatabase: the four
CREATE TABLE IF NOT EXISTS statements followed by the three
CREATE INDEX IF NOT EXISTS statements. -/
def initSchema (db : DB) : DB :=
  indexNames.foldl createIndexIfNotExists (tableNames.foldl createTableIfNotExists db)

/-- The fixed hardcoded catalog `foodsToSeed` of seedFoods. -/
def foodsToSeed : List NewComida :=
  [⟨"Apple", some 95, some "Medium size"⟩,
   ⟨"Banana", some 105, some "Medium size"⟩,
   ⟨"Chicken Breast (100g)", some 165, some "Cooked"⟩,
   ⟨"Broccoli (1 cup)", some 55, some "Cooked"⟩,
   ⟨"Rice (1 cup cooked)", some 205, some "White rice"⟩,
   ⟨"Salmon (100g)", some 208, some "Cooked"⟩,
   ⟨"Almonds (23 nuts)", some 164, some "Approx 1 oz"⟩,
   ⟨"Pizza Barbacoa Campofrío (410g)", some 278, some "Pizza con salsa barbacoa"⟩,
   ⟨"Pizza Jamón y Queso Campofrío (360g)", some 270, some "Pizza de jamón y queso"⟩,
   ⟨"Pizza Pepperoni Campofrío (345g)", some 345, some "Pizza de pepperoni"⟩,
   ⟨"Pizza 4 Quesos Campofrío (365g)", some 293, some "Pizza cuatro quesos"⟩,
   ⟨"Pizza Carbonara Campofrío (360g)", some 288, some "Pizza carbonara"⟩,
   ⟨"Pizza Atún Campofrío (360g)", some 360, some "Pizza de atún y cebolla"⟩,
   ⟨"Pizza Vegetal Campofrío (360g)", some 274, some "Pizza con verduras"⟩,
   ⟨"Pizza Jamón y Bacon Campofrío (360g)", some 258, some "Pizza de jamón y bacon con salsa de cebolla caramelizada"⟩,
   ⟨"Pizza Pollo Asado Campofrío (355g)", some 355, some "Pizza de pollo asado con salsa de miel y mostaza"⟩,
   ⟨"Pizza Mexicana Campofrío (400g)", some 230, some "Pizza con carne picada y salsa chipotle"⟩,
   ⟨"Pizza 5 Quesos Campofrío (360g)", some 360, some "Pizza con 5 quesos y salsa de queso semicurado"⟩]

/-- Semantics of `INSERT INTO Comida (nombre, valor_calorico, descripcion)
VALUES (?, ?, ?)` under the UNIQUE NOT NULL constraint on nombre:
`none` when a row with the same name exists (constraint violation). -/
def insertComida (db : DB) (f : NewComida) : Option DB :=
  if db.comidas.any fun co => co.nombre == f.nombre then none
  else
    some { db with
           comidas := db.comidas ++ [⟨db.nextComidaId, f.nombre, f.valor_calorico, f.descripcion⟩],
           nextComidaId := db.nextComidaId + 1 }

/-- The seeding transaction of seedFoods: `DELETE FROM Comida;` followed
by one INSERT per catalog item, all-or-nothing. -/
def seedFoodsTxn (db : DB) : Option DB :=
  foodsToSeed.foldl (fun acc f => acc.bind fun d => insertComida d f)
    (some { db with comidas := [] })

/-- seedFoods: runs the seeding transaction inside try/catch; `ioFail`
injects a storage failure of the transaction.  On any failure the
transaction is rolled back and the error is logged and swallowed, so the
caller always gets a database state back, never an error. -/
def seedFoods (ioFail : Bool) (db : DB) : DB :=
  if ioFail then db else (seedFoodsTxn db).getD db

/-- initializeDatabase: creates the schema, then seeds the food catalog
(whose failure, injected by `ioFailSeed`, is suppressed inside
seedFoods), and returns the initialized handle. -/
def initializeDatabase (ioFailSeed : Bool) (db : DB) : Except StorageError DB :=
  Except.ok (seedFoods ioFailSeed (initSchema db))

/-- addUser: `INSERT INTO Usuario (nombre, edad, altura, peso, metabolismo)
VALUES (?, ?, ?, ?, ?)`, returning lastInsertRowId; a storage error is
logged and rethrown unchanged. -/
def addUser (fail : Option StorageError) (db : DB) (u : NewUsuario) :
    Except StorageError (DB × Nat) :=
  match fail with
  | some e => Except.error e
  | none =>
      Except.ok
        ({ db with
           usuarios := db.usuarios ++ [⟨db.nextUsuarioId, u.nombre, u.edad, u.altura, u.peso, u.metabolismo⟩],
           nextUsuarioId := db.nextUsuarioId + 1 },
         db.nextUsuarioId)

/-- hasUsers: `SELECT COUNT(*) as count FROM Usuario`, then
`(result?.count ?? 0) > 0`; a storage error is logged and rethrown
unchanged. -/
def hasUsers (fail : Option StorageError) (db : DB) : Except StorageError Bool :=
  match fail with
  | some e => Except.error e
  | none => Except.ok (decide (0 < db.usuarios.length))

/-- Comparison used by `ORDER BY nombre` on Comida rows. -/
def comidaAsc (a b : ComidaRow) : Prop :=
  strLeB a.nombre b.nombre = true

instance : DecidableRel comidaAsc :=
  fun a b => instDecidableEqBool (strLeB a.nombre b.nombre) true

/-- getAllFoods: `SELECT * FROM Comida ORDER BY nombre`; a storage error
is logged and rethrown unchanged. -/
def getAllFoods (fail : Option StorageError) (db : DB) : Except StorageError (List ComidaRow) :=
  match fail with
  | some e => Except.error e
  | none => Except.ok (List.insertionSort comidaAsc db.comidas)

/-- The core of addConsumption: formats the provided date (or "now" when
none is provided) as `toISOString().slice(0, 19).replace('T', ' ')` and
inserts the Consumo row, with cantidad defaulting to 1.0; returns the
new state and lastInsertRowId. -/
def addConsumptionRun (db : DB) (now : DateTime) (c : NewConsumo) : DB × Nat :=
  let formattedDate := fmtTimestamp (c.fecha.getD now)
  ({ db with
     consumos := db.consumos ++ [⟨db.nextConsumoId, c.usuario_id, c.comida_id, formattedDate, c.cantidad.getD 1⟩],
     nextConsumoId := db.nextConsumoId + 1 },
   db.nextConsumoId)

/-- addConsumption: `INSERT INTO Consumo (usuario_id, comida_id, fecha,
cantidad) VALUES (?, ?, ?, ?)`; `now` is the current instant used when
no date is supplied; a storage error is logged and rethrown unchanged. -/
def addConsumption (fail : Option StorageError) (db : DB) (now : DateTime) (c : NewConsumo) :
    Except StorageError (DB × Nat) :=
  match fail with
  | some e => Except.error e
  | none => Except.ok (addConsumptionRun db now c)

/-- The Consumo rows matched by
`WHERE c.usuario_id = ? AND c.fecha BETWEEN ? AND ?`
(BETWEEN is inclusive; TEXT comparison is lexicographic). -/
def matchingConsumos (db : DB) (userId : Nat) (s e : String) : List ConsumoRow :=
  db.consumos.filter fun c => c.usuario_id == userId && strLeB s c.fecha && strLeB c.fecha e

/-- The Comida value joined to a Consumo row by
`JOIN Comida co ON c.comida_id = co.id`, projected to valor_calorico:
`none` when the join finds no row or the calorie value is NULL. -/
def resolveCal (db : DB) (c : ConsumoRow) : Option ℚ :=
  (db.comidas.find? fun co => co.id == c.comida_id).bind fun co => co.valor_calorico

/-- SQL `SUM` over a column of computed products: NULL products are
skipped, and the result is NULL when no non-NULL product exists. -/
def sumAgg (l : List ℚ) : Option ℚ :=
  match l with
  | [] => none
  | _ => some l.sum

/-- getCaloriesForDate: builds `dateString + ' 00:00:00'` and
`dateString + ' 23:59:59'` from `date.toISOString().slice(0, 10)`, runs
`SELECT SUM(c.cantidad * co.valor_calorico) ... WHERE c.usuario_id = ?
AND c.fecha BETWEEN ? AND ?`, and returns `result?.totalCalories ?? 0`;
a storage error is logged and rethrown unchanged. -/
def getCaloriesForDate (fail : Option StorageError) (db : DB) (userId : Nat) (date : DateTime) :
    Except StorageError ℚ :=
  match fail with
  | some e => Except.error e
  | none =>
      let dateString := fmtDate date
      let startOfDay := dateString ++ " 00:00:00"
      let endOfDay := dateString ++ " 23:59:59"
      let products :=
        (matchingConsumos db userId startOfDay endOfDay).filterMap fun c =>
          (resolveCal db c).map fun v => c.cantidad * v
      Except.ok ((sumAgg products).getD 0)

/-- The sum described by the specification: over all Consumption rows of
the user whose fecha lies in the inclusive range
`[d + ' 00:00:00', d + ' 23:59:59']`, the quantity times the referenced
Comida's caloric value. -/
def caloriesSpecSum (db : DB) (userId : Nat) (d : String) : ℚ :=
  ((matchingConsumos db userId (d ++ " 00:00:00") (d ++ " 23:59:59")).map fun c =>
    c.cantidad * (resolveCal db c).getD 0).sum

/-- Comparison used by `ORDER BY nombre` on the (id, nombre) projection
of Usuario rows; SQLite sorts NULLs first in ascending order. -/
def usuarioNombreAsc (a b : Nat × Option String) : Prop :=
  match a.2, b.2 with
  | none, _ => True
  | some _, none => False
  | some x, some y => strLeB x y = true

instance : DecidableRel usuarioNombreAsc := fun a b => by
  unfold usuarioNombreAsc
  rcases a.2 with _ | x <;> rcases b.2 with _ | y <;> infer_instance

/-- getAllUsers: `SELECT id, nombre FROM Usuario ORDER BY nombre`; a
storage error is logged and rethrown unchanged. -/
def getAllUsers (fail : Option StorageError) (db : DB) :
    Except StorageError (List (Nat × Option String)) :=
  match fail with
  | some e => Except.error e
  | none =>
      Except.ok (List.insertionSort usuarioNombreAsc (db.usuarios.map fun u => (u.id, u.nombre)))

/-- getUserById: `SELECT * FROM Usuario WHERE id = ?`, then
`result ?? null`; a storage error is logged and rethrown unchanged. -/
def getUserById (fail : Option StorageError) (db : DB) (userId : Nat) :
    Except StorageError (Option UsuarioRow) :=
  match fail with
  | some e => Except.error e
  | none => Except.ok (db.usuarios.find? fun u => u.id == userId)

/-- saveRoute: `INSERT INTO Ruta (usuario_id, fecha, distancia,
coordenadas) VALUES (?, ?, ?, ?)`, returning lastInsertRowId; a storage
error is logged and rethrown unchanged. -/
def saveRoute (fail : Option StorageError) (db : DB) (r : NewRuta) :
    Except StorageError (DB × Nat) :=
  match fail with
  | some e => Except.error e
  | none =>
      Except.ok
        ({ db with
           rutas := db.rutas ++ [⟨db.nextRutaId, r.usuario_id, r.fecha, r.distancia, r.coordenadas⟩],
           nextRutaId := db.nextRutaId + 1 },
         db.nextRutaId)

/-- Comparison used by `ORDER BY fecha DESC` on Ruta rows. -/
def rutaDesc (a b : RutaRow) : Prop :=
  strLeB b.fecha a.fecha = true

instance : DecidableRel rutaDesc :=
  fun a b => instDecidableEqBool (strLeB b.fecha a.fecha) true

instance : IsTotal RutaRow rutaDesc :=
  ⟨by
    have key : ∀ x y : List Char, charListLe x y = true ∨ charListLe y x = true := by
      intro x
      induction x with
      | nil => intro y; left; rfl
      | cons a as ih =>
          intro y
          cases y with
          | nil => right; rfl
          | cons b bs =>
              by_cases h1 : a.toNat < b.toNat
              · left; simp [charListLe, h1]
              · by_cases h2 : b.toNat < a.toNat
                · right; simp [charListLe, h2]
                · rcases ih bs with h | h
                  · left; simp [charListLe, h1, h2, h]
                  · right; simp [charListLe, h1, h2, h]
    intro a b
    exact key b.fecha.data a.fecha.data⟩

instance : IsTrans RutaRow rutaDesc :=
  ⟨by
    have key : ∀ x y z : List Char,
        charListLe x y = true → charListLe y z = true → charListLe x z = true := by
      intro x
      induction x with
      | nil => intro y z _ _; rfl
      | cons a as ih =>
          intro y z hxy hyz
          cases y with
          | nil => simp [charListLe] at hxy
          | cons b bs =>
              cases z with
              | nil => simp [charListLe] at hyz
              | cons c cs =>
                  by_cases hab : a.toNat < b.toNat
                  · by_cases hbc : b.toNat < c.toNat
                    · simp [charListLe, show a.toNat < c.toNat from lt_trans hab hbc]
                    · by_cases hcb : c.toNat < b.toNat
                      · simp [charListLe, hbc, hcb] at hyz
                      · simp [charListLe, show a.toNat < c.toNat by omega]
                  · by_cases hba : b.toNat < a.toNat
                    · simp [charListLe, hab, hba] at hxy
                    · simp only [charListLe, if_neg hab, if_neg hba] at hxy
                      by_cases hbc : b.toNat < c.toNat
                      · simp [charListLe, show a.toNat < c.toNat by omega]
                      · by_cases hcb : c.toNat < b.toNat
                        · simp [charListLe, hbc, hcb] at hyz
                        · simp only [charListLe, if_neg hbc, if_neg hcb] at hyz
                          simp only [charListLe,
                            if_neg (show ¬a.toNat < c.toNat by omega),
                            if_neg (show ¬c.toNat < a.toNat by omega)]
                          exact ih bs cs hxy hyz
    intro a b c hab hbc
    exact key c.fecha.data b.fecha.data a.fecha.data hbc hab⟩

/-- getRoutesForUser: `SELECT * FROM Ruta WHERE usuario_id = ? ORDER BY
fecha DESC`; a storage error is logged and rethrown unchanged. -/
def getRoutesForUser (fail : Option StorageError) (db : DB) (userId : Nat) :
    Except StorageError (List RutaRow) :=
  match fail with
  | some e => Except.error e
  | none =>
      Except.ok (List.insertionSort rutaDesc (db.rutas.filter fun r => r.usuario_id == userId))

/-- getRouteById: `SELECT * FROM Ruta WHERE id = ?`, then
`result ?? null`; a storage error is logged and rethrown unchanged. -/
def getRouteById (fail : Option StorageError) (db : DB) (routeId : Nat) :
    Except StorageError (Option RutaRow) :=
  match fail with
  | some e => Except.error e
  | none => Except.ok (db.rutas.find? fun r => r.id == routeId)

/-- Semantics of `DELETE FROM Comida WHERE id = ?` under the
`FOREIGN KEY (comida_id) REFERENCES Comida(id) ON DELETE RESTRICT`
clause of CREATE_CONSUMO_SQL: the delete fails and the state is
unchanged while any Consumo row references the food. -/
def deleteComida (db : DB) (comidaId : Nat) : DB × Option StorageError :=
  if db.consumos.any fun c => c.comida_id == comidaId then
    (db, some ⟨"FOREIGN KEY constraint failed"⟩)
  else
    ({ db with comidas := db.comidas.filter fun co => !(co.id == comidaId) }, none)

/-- Semantics of `DELETE FROM Usuario WHERE id = ?` under the
`ON DELETE CASCADE` clauses of CREATE_RUTA_SQL and CREATE_CONSUMO_SQL:
the user's Ruta and Consumo rows are deleted with the user. -/
def deleteUsuario (db : DB) (userId : Nat) : DB :=
  { db with
    usuarios := db.usuarios.filter fun u => !(u.id == userId),
    rutas := db.rutas.filter fun r => !(r.usuario_id == userId),
    consumos := db.consumos.filter fun c => !(c.usuario_id == userId) }

/-- A small concrete database state used to evaluate the theorems on
concrete inputs: one user (id 1), one food (Apple, 100 kcal), one
consumption of quantity 2 of that food on 2026-10-12, one route. -/
def sampleDB : DB :=
  { tables := ["Usuario", "Comida", "Ruta", "Consumo"]
    indexes := ["idx_ruta_usuario_fecha", "idx_consumo_usuario_fecha", "idx_consumo_comida"]
    usuarios := [⟨1, some "Alice", some 30, some 170, some 60, none⟩]
    comidas := [⟨1, "Apple", some 100, none⟩]
    rutas := [⟨1, 1, "2026-10-12 09:00:00", some 5, none⟩]
    consumos := [⟨1, 1, 1, "2026-10-12 08:30:00", 2⟩]
    nextUsuarioId := 2
    nextComidaId := 2
    nextRutaId := 2
    nextConsumoId := 2 }

section SchemaLemmas

theorem tables_createIndexIfNotExists (db : DB) (n : String) :
    (createIndexIfNotExists db n).tables = db.tables := by
  unfold createIndexIfNotExists
  split <;> rfl

theorem indexes_createTableIfNotExists (db : DB) (n : String) :
    (createTableIfNotExists db n).indexes = db.indexes := by
  unfold createTableIfNotExists
  split <;> rfl

theorem mem_tables_createTableIfNotExists (db : DB) (n m : String) (h : m ∈ db.tables) :
    m ∈ (createTableIfNotExists db n).tables := by
  unfold createTableIfNotExists
  split
  · exact h
  · exact List.mem_append_left _ h

theorem self_mem_createTableIfNotExists (db : DB) (n : String) :
    n ∈ (createTableIfNotExists db n).tables := by
  unfold createTableIfNotExists
  split
  · assumption
  · simp

theorem createTableIfNotExists_eq_of_mem (db : DB) (n : String) (h : n ∈ db.tables) :
    createTableIfNotExists db n = db := by
  unfold createTableIfNotExists
  rw [if_pos h]

theorem mem_indexes_createIndexIfNotExists (db : DB) (n m : String) (h : m ∈ db.indexes) :
    m ∈ (createIndexIfNotExists db n).indexes := by
  unfold createIndexIfNotExists
  split
  · exact h
  · exact List.mem_append_left _ h

theorem self_mem_createIndexIfNotExists (db : DB) (n : String) :
    n ∈ (createIndexIfNotExists db n).indexes := by
  unfold createIndexIfNotExists
  split
  · assumption
  · simp

theorem createIndexIfNotExists_eq_of_mem (db : DB) (n : String) (h : n ∈ db.indexes) :
    createIndexIfNotExists db n = db := by
  unfold createIndexIfNotExists
  rw [if_pos h]

theorem mem_tables_foldl_createTable (names : List String) (db : DB) (m : String)
    (h : m ∈ db.tables) : m ∈ (names.foldl createTableIfNotExists db).tables := by
  induction names generalizing db with
  | nil => exact h
  | cons a as ih => exact ih _ (mem_tables_createTableIfNotExists db a m h)

theorem all_mem_tables_foldl_createTable (names : List String) (db : DB) :
    ∀ n ∈ names, n ∈ (names.foldl createTableIfNotExists db).tables := by
  induction names generalizing db with
  | nil => intro n hn; cases hn
  | cons a as ih =>
      intro n hn
      rcases List.mem_cons.mp hn with rfl | hn
      · exact mem_tables_foldl_createTable as _ n (self_mem_createTableIfNotExists db n)
      · exact ih _ n hn

theorem foldl_createTable_eq_of_mem (names : List String) (db : DB)
    (h : ∀ n ∈ names, n ∈ db.tables) : names.foldl createTableIfNotExists db = db := by
  induction names with
  | nil => rfl
  | cons a as ih =>
      show as.foldl createTableIfNotExists (createTableIfNotExists db a) = db
      rw [createTableIfNotExists_eq_of_mem db a (h a (List.mem_cons_self a as))]
      exact ih fun n hn => h n (List.mem_cons_of_mem a hn)

theorem mem_indexes_foldl_createIndex (names : List String) (db : DB) (m : String)
    (h : m ∈ db.indexes) : m ∈ (names.foldl createIndexIfNotExists db).indexes := by
  induction names generalizing db with
  | nil => exact h
  | cons a as ih => exact ih _ (mem_indexes_createIndexIfNotExists db a m h)

theorem all_mem_indexes_foldl_createIndex (names : List String) (db : DB) :
    ∀ n ∈ names, n ∈ (names.foldl createIndexIfNotExists db).indexes := by
  induction names generalizing db with
  | nil => intro n hn; cases hn
  | cons a as ih =>
      intro n hn
      rcases List.mem_cons.mp hn with rfl | hn
      · exact mem_indexes_foldl_createIndex as _ n (self_mem_createIndexIfNotExists db n)
      · exact ih _ n hn

theorem foldl_createIndex_eq_of_mem (names : List String) (db : DB)
    (h : ∀ n ∈ names, n ∈ db.indexes) : names.foldl createIndexIfNotExists db = db := by
  induction names with
  | nil => rfl
  | cons a as ih =>
      show as.foldl createIndexIfNotExists (createIndexIfNotExists db a) = db
      rw [createIndexIfNotExists_eq_of_mem db a (h a (List.mem_cons_self a as))]
      exact ih fun n hn => h n (List.mem_cons_of_mem a hn)

theorem tables_foldl_createIndex (names : List String) (db : DB) :
    (names.foldl createIndexIfNotExists db).tables = db.tables := by
  induction names generalizing db with
  | nil => rfl
  | cons a as ih => exact (ih _).trans (tables_createIndexIfNotExists db a)

theorem indexes_foldl_createTable (names : List String) (db : DB) :
    (names.foldl createTableIfNotExists db).indexes = db.indexes := by
  induction names generalizing db with
  | nil => rfl
  | cons a as ih => exact (ih _).trans (indexes_createTableIfNotExists db a)

end SchemaLemmas

/-- C5: schema creation is idempotent — running the table/index creation
of initializeDatabase a second time changes nothing: the schema after
the second run equals the schema after the first run, with no duplicate
tables or indexes created. -/
theorem initSchema_idempotent (db : DB) : initSchema (initSchema db) = initSchema db := by
  unfold initSchema
  have ht : ∀ n ∈ tableNames,
      n ∈ (indexNames.foldl createIndexIfNotExists
            (tableNames.foldl createTableIfNotExists db)).tables := by
    intro n hn
    rw [tables_foldl_createIndex]
    exact all_mem_tables_foldl_createTable tableNames db n hn
  rw [foldl_createTable_eq_of_mem tableNames _ ht]
  exact foldl_createIndex_eq_of_mem indexNames _
    (all_mem_indexes_foldl_createIndex indexNames _)

/-- C6: a failure inside seedFoods is suppressed — seedFoods returns a
state (never an error) and leaves the table rolled back, and
initializeDatabase still completes successfully when seeding fails. -/
theorem seedFoods_failure_suppressed (db : DB) :
    seedFoods true db = db ∧ initializeDatabase true db = Except.ok (initSchema db) :=
  ⟨rfl, rfl⟩

/-- C7: every record-access function, on an initialized handle, either
returns its typed result (when the underlying statement succeeds) or
propagates the underlying storage error unchanged to the caller, with no
retry and no swallowing. -/
theorem recordAccess_error_propagation (e : StorageError) (db : DB) (u : NewUsuario)
    (now : DateTime) (nc : NewConsumo) (nr : NewRuta) (uid rid : Nat) (date : DateTime) :
    (addUser (some e) db u = Except.error e ∧ ∃ v, addUser none db u = Except.ok v) ∧
    (hasUsers (some e) db = Except.error e ∧ ∃ v, hasUsers none db = Except.ok v) ∧
    (getAllFoods (some e) db = Except.error e ∧ ∃ v, getAllFoods none db = Except.ok v) ∧
    (addConsumption (some e) db now nc = Except.error e ∧
      ∃ v, addConsumption none db now nc = Except.ok v) ∧
    (getCaloriesForDate (some e) db uid date = Except.error e ∧
      ∃ v, getCaloriesForDate none db uid date = Except.ok v) ∧
    (getAllUsers (some e) db = Except.error e ∧ ∃ v, getAllUsers none db = Except.ok v) ∧
    (getUserById (some e) db uid = Except.error e ∧ ∃ v, getUserById none db uid = Except.ok v) ∧
    (saveRoute (some e) db nr = Except.error e ∧ ∃ v, saveRoute none db nr = Except.ok v) ∧
    (getRoutesForUser (some e) db uid = Except.error e ∧
      ∃ v, getRoutesForUser none db uid = Except.ok v) ∧
    (getRouteById (some e) db rid = Except.error e ∧
      ∃ v, getRouteById none db rid = Except.ok v) :=
  ⟨⟨rfl, _, rfl⟩, ⟨rfl, _, rfl⟩, ⟨rfl, _, rfl⟩, ⟨rfl, _, rfl⟩, ⟨rfl, _, rfl⟩,
   ⟨rfl, _, rfl⟩, ⟨rfl, _, rfl⟩, ⟨rfl, _, rfl⟩, ⟨rfl, _, rfl⟩, ⟨rfl, _, rfl⟩⟩

/-- C8: hasUsers returns true exactly when the Usuario table holds at
least one row. -/
theorem hasUsers_iff_nonempty (db : DB) :
    hasUsers none db = Except.ok true ↔ db.usuarios ≠ [] := by
  simp [hasUsers, List.length_pos]

/-- C9: getRoutesForUser returns exactly the Ruta rows of the user,
sorted by fecha descending, and the empty list when the user has no
routes. -/
theorem getRoutesForUser_spec (db : DB) (uid : Nat) :
    ∃ l, getRoutesForUser none db uid = Except.ok l ∧
      l.Perm (db.rutas.filter fun r => r.usuario_id == uid) ∧
      List.Sorted rutaDesc l ∧
      ((∀ r ∈ db.rutas, r.usuario_id ≠ uid) → l = []) := by
  refine ⟨_, rfl, List.perm_insertionSort _ _, List.sorted_insertionSort _ _, fun h => ?_⟩
  have hnil : (db.rutas.filter fun r => r.usuario_id == uid) = [] := by
    rw [List.filter_eq_nil_iff]
    intro r hr
    simpa using h r hr
  show List.insertionSort rutaDesc (db.rutas.filter fun r => r.usuario_id == uid) = []
  rw [hnil]
  rfl

theorem filterMap_eq_map_of_some {α β : Type} (l : List α) (f : α → Option β) (g : α → β)
    (h : ∀ x ∈ l, f x = some (g x)) : l.filterMap f = l.map g := by
  induction l with
  | nil => rfl
  | cons a as ih =>
      rw [List.filterMap_cons, h a (List.mem_cons_self a as), List.map_cons,
        ih fun x hx => h x (List.mem_cons_of_mem a hx)]

theorem sumAgg_getD (l : List ℚ) : (sumAgg l).getD 0 = l.sum := by
  cases l <;> simp [sumAgg]

/-- C1: getCaloriesForDate returns the sum, over the user's Consumption
rows with fecha in the inclusive string range
`[d ++ ' 00:00:00', d ++ ' 23:59:59']` for the queried day d, of
cantidad times the referenced Comida's valor_calorico; and it returns 0
(never null) when no row matches.  The hypothesis is the schema's
referential integrity: every matching Consumo row joins to an existing
Comida row with a non-NULL caloric value. -/
theorem getCaloriesForDate_spec (db : DB) (userId : Nat) (date : DateTime)
    (h : ∀ c ∈ matchingConsumos db userId (fmtDate date ++ " 00:00:00")
          (fmtDate date ++ " 23:59:59"), (resolveCal db c).isSome = true) :
    getCaloriesForDate none db userId date =
      Except.ok (caloriesSpecSum db userId (fmtDate date)) ∧
    (matchingConsumos db userId (fmtDate date ++ " 00:00:00") (fmtDate date ++ " 23:59:59") = [] →
      getCaloriesForDate none db userId date = Except.ok 0) := by
  constructor
  · show Except.ok _ = Except.ok _
    congr 1
    unfold caloriesSpecSum
    rw [filterMap_eq_map_of_some _ _ (fun c => c.cantidad * (resolveCal db c).getD 0) ?_]
    · exact sumAgg_getD _
    · intro c hc
      obtain ⟨v, hv⟩ := Option.isSome_iff_exists.mp (h c hc)
      simp [hv]
  · intro hM
    show Except.ok _ = Except.ok _
    rw [hM]
    rfl

/-- Witness for C1 on sampleDB: the user logged quantity 2 of a food of
100 kcal on 2026-10-12, and the reported total for that day is 200. -/
theorem getCaloriesForDate_spec_witness :
    (∀ c ∈ matchingConsumos sampleDB 1 (fmtDate ⟨2026, 10, 12, 0, 0, 0⟩ ++ " 00:00:00")
        (fmtDate ⟨2026, 10, 12, 0, 0, 0⟩ ++ " 23:59:59"), (resolveCal sampleDB c).isSome = true) ∧
    (getCaloriesForDate none sampleDB 1 ⟨2026, 10, 12, 0, 0, 0⟩ =
        Except.ok (caloriesSpecSum sampleDB 1 (fmtDate ⟨2026, 10, 12, 0, 0, 0⟩)) ∧
      (matchingConsumos sampleDB 1 (fmtDate ⟨2026, 10, 12, 0, 0, 0⟩ ++ " 00:00:00")
          (fmtDate ⟨2026, 10, 12, 0, 0, 0⟩ ++ " 23:59:59") = [] →
        getCaloriesForDate none sampleDB 1 ⟨2026, 10, 12, 0, 0, 0⟩ = Except.ok 0)) ∧
    caloriesSpecSum sampleDB 1 (fmtDate ⟨2026, 10, 12, 0, 0, 0⟩) = 200 :=
  ⟨by decide, getCaloriesForDate_spec sampleDB 1 ⟨2026, 10, 12, 0, 0, 0⟩ (by decide), by
    show (2 : ℚ) * 100 + 0 = 200
    norm_num⟩

/-- C3: after seedFoods completes, the Comida table holds exactly the
rows of the fixed hardcoded catalog — same row count and same names in
order — regardless of the table's prior contents, and every row is a
freshly inserted one (all prior rows are deleted). -/
theorem insertComida_fold (fs : List NewComida) :
    ∀ db : DB, (∀ f ∈ fs, ∀ co ∈ db.comidas, co.nombre ≠ f.nombre) →
    (fs.map fun f => f.nombre).Nodup →
    ∃ db2, fs.foldl (fun acc f => acc.bind fun d => insertComida d f) (some db) = some db2 ∧
      db2.comidas.map (fun r => r.nombre) =
        db.comidas.map (fun r => r.nombre) ++ fs.map (fun f => f.nombre) ∧
      db2.comidas.length = db.comidas.length + fs.length ∧
      ∀ r ∈ db2.comidas, r ∈ db.comidas ∨ db.nextComidaId ≤ r.id := by
  induction fs with
  | nil => exact fun db _ _ => ⟨db, rfl, by simp, by simp, fun r hr => Or.inl hr⟩
  | cons f fs ih =>
      intro db hfree hnd
      have hany : (db.comidas.any fun co => co.nombre == f.nombre) = false := by
        rw [List.any_eq_false]
        intro co hco
        simp only [beq_iff_eq]
        exact hfree f (List.mem_cons_self f fs) co hco
      obtain ⟨hf_notmem, hnd'⟩ := List.nodup_cons.mp hnd
      obtain ⟨db2, h1, h2, h3, h4⟩ :=
        ih { db with
             comidas := db.comidas ++ [⟨db.nextComidaId, f.nombre, f.valor_calorico, f.descripcion⟩],
             nextComidaId := db.nextComidaId + 1 }
          (by
            intro g hg co hco
            rcases List.mem_append.mp hco with hco | hco
            · exact hfree g (List.mem_cons_of_mem f hg) co hco
            · have hcoe :
                  co = ⟨db.nextComidaId, f.nombre, f.valor_calorico, f.descripcion⟩ := by
                simpa using hco
              rw [hcoe]
              intro hEq
              apply hf_notmem
              have hfg : f.nombre = g.nombre := hEq
              show f.nombre ∈ fs.map fun x => x.nombre
              rw [hfg]
              exact List.mem_map_of_mem (fun x => x.nombre) hg)
          hnd'
      refine ⟨db2, ?_, ?_, ?_, ?_⟩
      · rw [List.foldl_cons]
        have hstep :
            (some db).bind (fun d => insertComida d f) =
              some { db with
                     comidas := db.comidas ++
                       [⟨db.nextComidaId, f.nombre, f.valor_calorico, f.descripcion⟩],
                     nextComidaId := db.nextComidaId + 1 } := by
          simp only [Option.bind_eq_bind, Option.some_bind, insertComida, hany,
            Bool.false_eq_true, if_false]
        rw [hstep]
        exact h1
      · rw [h2]
        simp
      · rw [h3]
        simp
        omega
      · intro r hr
        rcases h4 r hr with hin | hid
        · rcases List.mem_append.mp hin with hmem | hmem
          · exact Or.inl hmem
          · right
            have : r = ⟨db.nextComidaId, f.nombre, f.valor_calorico, f.descripcion⟩ := by
              simpa using hmem
            rw [this]
        · right
          have hid2 : db.nextComidaId + 1 ≤ r.id := hid
          omega

/-- C3: after seedFoods completes, the Comida table holds exactly the
rows of the fixed hardcoded catalog — same row count and same names in
order — regardless of the table's prior contents, and every row is a
freshly inserted one (all prior rows are deleted). -/
theorem seedFoods_replaces_catalog (db : DB) :
    ∃ db2, seedFoodsTxn db = some db2 ∧ seedFoods false db = db2 ∧
      db2.comidas.map (fun r => r.nombre) = foodsToSeed.map (fun f => f.nombre) ∧
      db2.comidas.length = foodsToSeed.length ∧
      ∀ r ∈ db2.comidas, db.nextComidaId ≤ r.id := by
  obtain ⟨db2, h1, h2, h3, h4⟩ :=
    insertComida_fold foodsToSeed { db with comidas := [] }
      (by intro f _ co hco; cases hco) (by decide)
  refine ⟨db2, h1, ?_, by simpa using h2, by simpa using h3, ?_⟩
  · show (seedFoodsTxn db).getD db = db2
    rw [show seedFoodsTxn db = some db2 from h1]
    rfl
  · intro r hr
    rcases h4 r hr with hin | hid
    · cases hin
    · exact hid

/-- C4: under the schema's declared foreign-key actions, deleting a
Comida row that some Consumo row references fails and leaves the state
(hence the Comida row) unchanged, while deleting a Usuario row cascades:
afterwards no Consumo or Ruta row of that user remains. -/
theorem fk_restrict_cascade (db : DB) (cid uid : Nat)
    (h : ∃ c ∈ db.consumos, c.comida_id = cid) :
    (deleteComida db cid).2.isSome = true ∧ (deleteComida db cid).1 = db ∧
    (∀ c ∈ (deleteUsuario db uid).consumos, c.usuario_id ≠ uid) ∧
    (∀ r ∈ (deleteUsuario db uid).rutas, r.usuario_id ≠ uid) := by
  have hc : (db.consumos.any fun c => c.comida_id == cid) = true := by
    rw [List.any_eq_true]
    obtain ⟨c, hm, he⟩ := h
    exact ⟨c, hm, by simp [he]⟩
  refine ⟨?_, ?_, ?_, ?_⟩
  · unfold deleteComida
    rw [if_pos hc]
    rfl
  · unfold deleteComida
    rw [if_pos hc]
  · intro c hcm
    simpa using (List.mem_filter.mp hcm).2
  · intro r hrm
    simpa using (List.mem_filter.mp hrm).2

/-- Witness for C4 on sampleDB: the single consumption references food 1,
so food 1 cannot be deleted, and deleting user 1 removes their
consumption and route. -/
theorem fk_restrict_cascade_witness :
    (∃ c ∈ sampleDB.consumos, c.comida_id = 1) ∧
    ((deleteComida sampleDB 1).2.isSome = true ∧ (deleteComida sampleDB 1).1 = sampleDB ∧
     (∀ c ∈ (deleteUsuario sampleDB 1).consumos, c.usuario_id ≠ 1) ∧
     (∀ r ∈ (deleteUsuario sampleDB 1).rutas, r.usuario_id ≠ 1)) :=
  ⟨by decide, fk_restrict_cascade sampleDB 1 1 (by decide)⟩

/-- C10: for an id matching no stored row, getUserById and getRouteById
return null (not an error); they return an error only when the
underlying storage operation itself fails. -/
theorem getById_returns_null (db : DB) (uid rid : Nat)
    (h1 : ∀ u ∈ db.usuarios, u.id ≠ uid) (h2 : ∀ r ∈ db.rutas, r.id ≠ rid) :
    getUserById none db uid = Except.ok none ∧
    getRouteById none db rid = Except.ok none ∧
    ∀ e : StorageError, getUserById (some e) db uid = Except.error e ∧
      getRouteById (some e) db rid = Except.error e := by
  refine ⟨?_, ?_, fun e => ⟨rfl, rfl⟩⟩
  · have hfind : db.usuarios.find? (fun u => u.id == uid) = none :=
      List.find?_eq_none.mpr fun u hu => by simpa using h1 u hu
    simp [getUserById, hfind]
  · have hfind : db.rutas.find? (fun r => r.id == rid) = none :=
      List.find?_eq_none.mpr fun r hr => by simpa using h2 r hr
    simp [getRouteById, hfind]

/-- Witness for C10 on sampleDB: no user and no route has id 2, and both
lookups report null. -/
theorem getById_returns_null_witness :
    (∀ u ∈ sampleDB.usuarios, u.id ≠ 2) ∧ (∀ r ∈ sampleDB.rutas, r.id ≠ 2) ∧
    (getUserById none sampleDB 2 = Except.ok none ∧
     getRouteById none sampleDB 2 = Except.ok none ∧
     ∀ e : StorageError, getUserById (some e) sampleDB 2 = Except.error e ∧
       getRouteById (some e) sampleDB 2 = Except.error e) :=
  ⟨by decide, by decide, getById_returns_null sampleDB 2 2 (by decide) (by decide)⟩

theorem digitChar_mod_isDigit (n : Nat) : (Nat.digitChar (n % 10)).isDigit = true := by
  have h : n % 10 < 10 := Nat.mod_lt _ (by norm_num)
  revert h
  generalize n % 10 = d
  revert d
  decide

theorem isTimestampLayout_explicit (a b c d e f g h i j k l m n : Char)
    (ha : a.isDigit = true) (hb : b.isDigit = true) (hc : c.isDigit = true)
    (hd : d.isDigit = true) (he : e.isDigit = true) (hf : f.isDigit = true)
    (hg : g.isDigit = true) (hh : h.isDigit = true) (hi : i.isDigit = true)
    (hj : j.isDigit = true) (hk : k.isDigit = true) (hl : l.isDigit = true)
    (hm : m.isDigit = true) (hn : n.isDigit = true) :
    isTimestampLayout
      (String.mk [a, b, c, d, '-', e, f, '-', g, h, ' ', i, j, ':', k, l, ':', m, n]) = true := by
  simp [isTimestampLayout, ha, hb, hc, hd, he, hf, hg, hh, hi, hj, hk, hl, hm, hn]

theorem isTimestampLayout_fmt (dt : DateTime) :
    isTimestampLayout (fmtTimestamp dt) = true := by
  have hfmt : fmtTimestamp dt = String.mk
      [Nat.digitChar (dt.year / 1000 % 10), Nat.digitChar (dt.year / 100 % 10),
       Nat.digitChar (dt.year / 10 % 10), Nat.digitChar (dt.year % 10), '-',
       Nat.digitChar (dt.month / 10 % 10), Nat.digitChar (dt.month % 10), '-',
       Nat.digitChar (dt.day / 10 % 10), Nat.digitChar (dt.day % 10), ' ',
       Nat.digitChar (dt.hour / 10 % 10), Nat.digitChar (dt.hour % 10), ':',
       Nat.digitChar (dt.minute / 10 % 10), Nat.digitChar (dt.minute % 10), ':',
       Nat.digitChar (dt.second / 10 % 10), Nat.digitChar (dt.second % 10)] := rfl
  rw [hfmt]
  exact isTimestampLayout_explicit _ _ _ _ _ _ _ _ _ _ _ _ _ _
    (digitChar_mod_isDigit _) (digitChar_mod_isDigit _) (digitChar_mod_isDigit _)
    (digitChar_mod_isDigit _) (digitChar_mod_isDigit _) (digitChar_mod_isDigit _)
    (digitChar_mod_isDigit _) (digitChar_mod_isDigit _) (digitChar_mod_isDigit _)
    (digitChar_mod_isDigit _) (digitChar_mod_isDigit _) (digitChar_mod_isDigit _)
    (digitChar_mod_isDigit _) (digitChar_mod_isDigit _)

/-- C2 counterexample: at the UTC instant 2026-10-12 10:00:00 on a
device whose timezone offset is +1 hour, the timestamp addConsumption
writes for a consumption with no explicit date is the UTC rendering
"2026-10-12 10:00:00", not the local-time rendering
"2026-10-12 11:00:00" — the stored string is not a local-time string. -/
theorem addConsumption_not_local_time :
    ((addConsumptionRun emptyDB ⟨2026, 10, 12, 10, 0, 0⟩ ⟨1, 1, none, none⟩).1.consumos.map
        fun r => r.fecha) = [fmtTimestamp ⟨2026, 10, 12, 10, 0, 0⟩] ∧
    fmtTimestamp ⟨2026, 10, 12, 10, 0, 0⟩ = "2026-10-12 10:00:00" ∧
    fmtTimestamp (localOf ⟨2026, 10, 12, 10, 0, 0⟩ 1) = "2026-10-12 11:00:00" ∧
    fmtTimestamp ⟨2026, 10, 12, 10, 0, 0⟩ ≠ fmtTimestamp (localOf ⟨2026, 10, 12, 10, 0, 0⟩ 1) := by
  refine ⟨rfl, rfl, rfl, ?_⟩
  decide

/-- C2 (amended): every Consumption timestamp written by addConsumption
is the UTC-time rendering of the consumption's instant in the fixed
zero-padded layout YYYY-MM-DD HH:MM:SS, and a Consumption inserted with
no explicit date is stamped with the current UTC time in that layout. -/
theorem addConsumption_timestamp_utc_layout (db : DB) (now : DateTime) (c : NewConsumo) :
    (∀ r ∈ (addConsumptionRun db now c).1.consumos,
        r ∈ db.consumos ∨ r.fecha = fmtTimestamp (c.fecha.getD now)) ∧
    isTimestampLayout (fmtTimestamp (c.fecha.getD now)) = true ∧
    (c.fecha = none →
      (addConsumptionRun db now c).1.consumos =
        db.consumos ++
          [⟨db.nextConsumoId, c.usuario_id, c.comida_id, fmtTimestamp now, c.cantidad.getD 1⟩]) := by
  refine ⟨?_, isTimestampLayout_fmt _, ?_⟩
  · intro r hr
    rcases List.mem_append.mp hr with h | h
    · exact Or.inl h
    · right
      have hre :
          r = ⟨db.nextConsumoId, c.usuario_id, c.comida_id,
                fmtTimestamp (c.fecha.getD now), c.cantidad.getD 1⟩ := by
        simpa using h
      rw [hre]
  · intro hcn
    simp [addConsumptionRun, hcn]

/-- Witness for C2 (amended) at a concrete instant and consumption with
no explicit date. -/
theorem addConsumption_timestamp_utc_layout_witness :
    (∀ r ∈ (addConsumptionRun emptyDB ⟨2026, 10, 12, 10, 0, 0⟩
        (NewConsumo.mk 1 1 none none)).1.consumos,
      r ∈ emptyDB.consumos ∨
        r.fecha = fmtTimestamp ((NewConsumo.mk 1 1 none none).fecha.getD ⟨2026, 10, 12, 10, 0, 0⟩)) ∧
    isTimestampLayout
      (fmtTimestamp ((NewConsumo.mk 1 1 none none).fecha.getD ⟨2026, 10, 12, 10, 0, 0⟩)) = true ∧
    ((NewConsumo.mk 1 1 none none).fecha = none →
      (addConsumptionRun emptyDB ⟨2026, 10, 12, 10, 0, 0⟩ (NewConsumo.mk 1 1 none none)).1.consumos =
        emptyDB.consumos ++
          [⟨emptyDB.nextConsumoId, (NewConsumo.mk 1 1 none none).usuario_id,
            (NewConsumo.mk 1 1 none none).comida_id, fmtTimestamp ⟨2026, 10, 12, 10, 0, 0⟩,
            (NewConsumo.mk 1 1 none none).cantidad.getD 1⟩]) :=
  addConsumption_timestamp_utc_layout emptyDB ⟨2026, 10, 12, 10, 0, 0⟩ (NewConsumo.mk 1 1 none none)

/-- Witness for C3 at the empty database. -/
theorem seedFoods_replaces_catalog_witness :
    ∃ db2, seedFoodsTxn emptyDB = some db2 ∧ seedFoods false emptyDB = db2 ∧
      db2.comidas.map (fun r => r.nombre) = foodsToSeed.map (fun f => f.nombre) ∧
      db2.comidas.length = foodsToSeed.length ∧
      ∀ r ∈ db2.comidas, emptyDB.nextComidaId ≤ r.id :=
  seedFoods_replaces_catalog emptyDB

/-- Witness for C5 at the empty database. -/
theorem initSchema_idempotent_witness :
    initSchema (initSchema emptyDB) = initSchema emptyDB :=
  initSchema_idempotent emptyDB

/-- Witness for C6 at the sample database. -/
theorem seedFoods_failure_suppressed_witness :
    seedFoods true sampleDB = sampleDB ∧
    initializeDatabase true sampleDB = Except.ok (initSchema sampleDB) :=
  seedFoods_failure_suppressed sampleDB

/-- Witness for C7 at a concrete error and concrete arguments. -/
theorem recordAccess_error_propagation_witness :
    (addUser (some (StorageError.mk "disk io failure")) sampleDB
        (NewUsuario.mk none none none none none) =
          Except.error (StorageError.mk "disk io failure") ∧
      ∃ v, addUser none sampleDB (NewUsuario.mk none none none none none) = Except.ok v) ∧
    (hasUsers (some (StorageError.mk "disk io failure")) sampleDB =
          Except.error (StorageError.mk "disk io failure") ∧
      ∃ v, hasUsers none sampleDB = Except.ok v) ∧
    (getAllFoods (some (StorageError.mk "disk io failure")) sampleDB =
          Except.error (StorageError.mk "disk io failure") ∧
      ∃ v, getAllFoods none sampleDB = Except.ok v) ∧
    (addConsumption (some (StorageError.mk "disk io failure")) sampleDB ⟨2026, 10, 12, 10, 0, 0⟩
        (NewConsumo.mk 1 1 none none) = Except.error (StorageError.mk "disk io failure") ∧
      ∃ v, addConsumption none sampleDB ⟨2026, 10, 12, 10, 0, 0⟩ (NewConsumo.mk 1 1 none none) =
        Except.ok v) ∧
    (getCaloriesForDate (some (StorageError.mk "disk io failure")) sampleDB 1 ⟨2026, 10, 12, 0, 0, 0⟩ =
          Except.error (StorageError.mk "disk io failure") ∧
      ∃ v, getCaloriesForDate none sampleDB 1 ⟨2026, 10, 12, 0, 0, 0⟩ = Except.ok v) ∧
    (getAllUsers (some (StorageError.mk "disk io failure")) sampleDB =
          Except.error (StorageError.mk "disk io failure") ∧
      ∃ v, getAllUsers none sampleDB = Except.ok v) ∧
    (getUserById (some (StorageError.mk "disk io failure")) sampleDB 1 =
          Except.error (StorageError.mk "disk io failure") ∧
      ∃ v, getUserById none sampleDB 1 = Except.ok v) ∧
    (saveRoute (some (StorageError.mk "disk io failure")) sampleDB
        (NewRuta.mk 1 "2026-10-12 10:00:00" none none) =
          Except.error (StorageError.mk "disk io failure") ∧
      ∃ v, saveRoute none sampleDB (NewRuta.mk 1 "2026-10-12 10:00:00" none none) = Except.ok v) ∧
    (getRoutesForUser (some (StorageError.mk "disk io failure")) sampleDB 1 =
          Except.error (StorageError.mk "disk io failure") ∧
      ∃ v, getRoutesForUser none sampleDB 1 = Except.ok v) ∧
    (getRouteById (some (StorageError.mk "disk io failure")) sampleDB 1 =
          Except.error (StorageError.mk "disk io failure") ∧
      ∃ v, getRouteById none sampleDB 1 = Except.ok v) :=
  recordAccess_error_propagation (StorageError.mk "disk io failure") sampleDB
    (NewUsuario.mk none none none none none) ⟨2026, 10, 12, 10, 0, 0⟩
    (NewConsumo.mk 1 1 none none) (NewRuta.mk 1 "2026-10-12 10:00:00" none none) 1 1
    ⟨2026, 10, 12, 0, 0, 0⟩

/-- Witness for C8 at the sample database, which has one user. -/
theorem hasUsers_iff_nonempty_witness :
    (hasUsers none sampleDB = Except.ok true ↔ sampleDB.usuarios ≠ []) ∧
    hasUsers none sampleDB = Except.ok true :=
  ⟨hasUsers_iff_nonempty sampleDB, rfl⟩

/-- Witness for C9 at the sample database and user 1. -/
theorem getRoutesForUser_spec_witness :
    ∃ l, getRoutesForUser none sampleDB 1 = Except.ok l ∧
      l.Perm (sampleDB.rutas.filter fun r => r.usuario_id == 1) ∧
      List.Sorted rutaDesc l ∧
      ((∀ r ∈ sampleDB.rutas, r.usuario_id ≠ 1) → l = []) :=
  getRoutesForUser_spec sampleDB 1

end FitnessTracker
